import Mathlib

/-!
Verification of the multicloudhub-operator reconcile helpers
(`pkg/controller/multiclusterhub` helpers: `ensureDeployment`, `ensureService`,
`ensureSecret`, `ensureChannel`, `ensureSubscription`, `apiReady`,
`copyPullSecret`, `fileExists`, `readFileRaw`, `ReadComponentVersionFile`).

The Kubernetes client is modelled as a record of pure functions over an
abstract store state `σ`: `Get` returns either a resource or an error
(`notFound` or any other error), `Create`/`Update` return an optional error
together with the successor state.  Each reconcile helper is a function of
the client, the current store state and its Go arguments; it returns the new
store state, the ordered list of store calls it issued, and the pair
`(*reconcile.Result, error)` that the Go function returns, modelled as
`Option ReconcileResult × Option KErr` (`none` = Go `nil`).
-/

/-- `types.NamespacedName`: the (name, namespace) key of a store lookup. -/
structure NamespacedName where
  name : String
  ns : String
deriving DecidableEq, Repr

/-- Errors returned by the store / external collaborators.  `notFound` is the
class recognised by `errors.IsNotFound`; every other error is `other`. -/
inductive KErr where
  | notFound
  | other (msg : String)
deriving DecidableEq, Repr

/-- `errors.IsNotFound`. -/
def KErr.isNotFound : KErr → Bool
  | .notFound => true
  | .other _ => false

/-- `reconcile.Result`: a requeue flag and a requeue-after delay (seconds;
`time.Second * 10` is modelled as `10`). -/
structure ReconcileResult where
  requeue : Bool
  requeueAfterSeconds : Nat
deriving DecidableEq, Repr

/-- `&reconcile.Result{}`: the zero result returned on every failure path. -/
def emptyResult : ReconcileResult := ⟨false, 0⟩

/-- One store interaction, recording the object a write carries. -/
inductive Call (α : Type) where
  | get (ref : NamespacedName)
  | create (x : α)
  | update (x : α)
deriving DecidableEq, Repr

def Call.isCreate : Call α → Bool
  | .create _ => true
  | _ => false

def Call.isUpdate : Call α → Bool
  | .update _ => true
  | _ => false

def Call.isWrite : Call α → Bool
  | .get _ => false
  | _ => true

def countCreates (calls : List (Call α)) : Nat :=
  (calls.filter Call.isCreate).length

def countWrites (calls : List (Call α)) : Nat :=
  (calls.filter Call.isWrite).length

/-- The controller-runtime client (`r.client`), restricted to the operations
the helpers use, as pure functions over an abstract store state `σ`. -/
structure Client (σ α : Type) where
  get : σ → NamespacedName → Except KErr α
  create : σ → α → Option KErr × σ
  update : σ → α → Option KErr × σ

/-- What one reconcile helper invocation produced: the successor store state,
the store calls it issued in order, and the Go return pair
`(*reconcile.Result, error)`. -/
structure EnsureResult (σ α : Type) where
  state : σ
  calls : List (Call α)
  result : Option ReconcileResult
  errOut : Option KErr

/-- The spec's `ReconcileOutcome`, recovered observationally from a helper
invocation: `failed` if it returned an error, otherwise `created` / `updated`
if it issued such a write, else `noOp`. -/
inductive Outcome where
  | created
  | updated
  | noOp
  | failed
deriving DecidableEq, Repr

def outcomeOf (r : EnsureResult σ α) : Outcome :=
  if r.errOut.isSome then .failed
  else if r.calls.any Call.isCreate then .created
  else if r.calls.any Call.isUpdate then .updated
  else .noOp

/-- `operatorsv1beta1.MultiClusterHub`, restricted to the fields the helpers
read: metadata name / namespace / UID and `Spec.ImagePullSecret`. -/
structure MultiClusterHub where
  name : String
  ns : String
  uid : String
  imagePullSecret : String
deriving DecidableEq, Repr

/-- `corev1.Secret`, restricted to the fields the helpers touch. -/
structure Secret where
  name : String
  ns : String
  selfLink : String
  resourceVersion : String
  uid : String
  labels : List (String × String)
  data : List (String × String)
deriving DecidableEq, Repr

/-- `corev1.Service`; the spec payload is opaque to the helpers. -/
structure Service where
  name : String
  ns : String
  spec : String
deriving DecidableEq, Repr

/-- `appsv1.Deployment`; the spec payload is opaque to `ensureDeployment`
itself (only the validation strategies look inside it). -/
structure Deployment where
  name : String
  ns : String
  payload : String
deriving DecidableEq, Repr

/-- `unstructured.Unstructured`, restricted to the fields the helpers read. -/
structure Unstructured where
  name : String
  ns : String
  kind : String
  labels : List (String × String)
  payload : String
deriving DecidableEq, Repr

/-- `ensureSecret`: Get by (s.Name, m.Namespace); on IsNotFound create `s`
(create failure → `(&Result{}, err)`); on any other Get error →
`(&Result{}, err)`; on found → `(nil, nil)`.  Note: no owner-UID guard. -/
def ensureSecret (c : Client σ Secret) (st : σ) (m : MultiClusterHub)
    (s : Secret) : EnsureResult σ Secret :=
  let ref : NamespacedName := ⟨s.name, m.ns⟩
  match c.get st ref with
  | .error e =>
    if e.isNotFound then
      match c.create st s with
      | (some ce, st') => ⟨st', [.get ref, .create s], some emptyResult, some ce⟩
      | (none, st') => ⟨st', [.get ref, .create s], none, none⟩
    else
      ⟨st, [.get ref], some emptyResult, some e⟩
  | .ok _ => ⟨st, [.get ref], none, none⟩

/-- `ensureService`: Get by (s.Name, m.Namespace); on IsNotFound create `s`;
on any other Get error → `(&Result{}, err)`; on found → `(nil, nil)` with no
diffing and no update. -/
def ensureService (c : Client σ Service) (st : σ) (m : MultiClusterHub)
    (s : Service) : EnsureResult σ Service :=
  let ref : NamespacedName := ⟨s.name, m.ns⟩
  match c.get st ref with
  | .error e =>
    if e.isNotFound then
      match c.create st s with
      | (some ce, st') => ⟨st', [.get ref, .create s], some emptyResult, some ce⟩
      | (none, st') => ⟨st', [.get ref, .create s], none, none⟩
    else
      ⟨st, [.get ref], some emptyResult, some e⟩
  | .ok _ => ⟨st, [.get ref], none, none⟩

/-- `ensureChannel`: Get by (u.GetName(), m.Namespace); on IsNotFound create
`u`; on any other Get error → `(&Result{}, err)`; on found → `(nil, nil)`. -/
def ensureChannel (c : Client σ Unstructured) (st : σ) (m : MultiClusterHub)
    (u : Unstructured) : EnsureResult σ Unstructured :=
  let ref : NamespacedName := ⟨u.name, m.ns⟩
  match c.get st ref with
  | .error e =>
    if e.isNotFound then
      match c.create st u with
      | (some ce, st') => ⟨st', [.get ref, .create u], some emptyResult, some ce⟩
      | (none, st') => ⟨st', [.get ref, .create u], none, none⟩
    else
      ⟨st, [.get ref], some emptyResult, some e⟩
  | .ok _ => ⟨st, [.get ref], none, none⟩

/-- `ensureSubscription`: Get by (u.GetName(), u.GetNamespace()); on
IsNotFound create `u` only when `m.UID != ""` (create failure →
`(&Result{}, err)`), then return `(nil, nil)`; on any other Get error →
`(&Result{}, err)`; on found, dispatch to `subscription.Validate` (an
external strategy, passed in as `validate`) and update when needed. -/
def ensureSubscription (validate : Unstructured → Unstructured → Unstructured × Bool)
    (c : Client σ Unstructured) (st : σ) (m : MultiClusterHub)
    (u : Unstructured) : EnsureResult σ Unstructured :=
  let ref : NamespacedName := ⟨u.name, u.ns⟩
  match c.get st ref with
  | .error e =>
    if e.isNotFound then
      if m.uid ≠ "" then
        match c.create st u with
        | (some ce, st') => ⟨st', [.get ref, .create u], some emptyResult, some ce⟩
        | (none, st') => ⟨st', [.get ref, .create u], none, none⟩
      else
        ⟨st, [.get ref], none, none⟩
    else
      ⟨st, [.get ref], some emptyResult, some e⟩
  | .ok found =>
    let vres := validate found u
    if vres.2 then
      match c.update st vres.1 with
      | (some ue, st') => ⟨st', [.get ref, .update vres.1], some emptyResult, some ue⟩
      | (none, st') => ⟨st', [.get ref, .update vres.1], none, none⟩
    else
      ⟨st, [.get ref], none, none⟩

/-- Modelled from the spec: `helmrepo.HelmRepoName`, the name constant of the
helm-repo deployment, is defined outside the provided source (helmrepo
package); only its identity as a distinct known name matters here. -/
def HelmRepoName : String := "multiclusterhub-repo"

/-- Modelled from the spec: `mcm.APIServerName`, defined outside the provided
source (mcm package). -/
def APIServerName : String := "mcm-apiserver"

/-- Modelled from the spec: `mcm.ControllerName`, defined outside the provided
source (mcm package). -/
def ControllerName : String := "mcm-controller"

/-- Modelled from the spec: `mcm.WebhookName`, defined outside the provided
source (mcm package). -/
def WebhookName : String := "mcm-webhook"

/-- `utils.CacheSpec` (`r.CacheSpec`), opaque to the helpers themselves. -/
structure CacheSpec where
  imageOverrides : List (String × String)
deriving DecidableEq, Repr

/-- `ensureDeployment`: Get by (dep.Name, m.Namespace); on IsNotFound create
`dep` (create failure → `(&Result{}, err)`); on any other Get error →
`(&Result{}, err)`; on found, switch on `found.Name`: the helm-repo name
dispatches to `helmrepo.ValidateDeployment`, the three mcm names dispatch to
`mcm.ValidateDeployment` (both external strategies, passed in as
`hrValidate` / `mcmValidate`), an unknown name is left alone (`nil, nil`);
when the strategy reports `needsUpdate` the returned `desired` replacement is
sent to Update. -/
def ensureDeployment
    (hrValidate mcmValidate : MultiClusterHub → CacheSpec → Deployment → Deployment × Bool)
    (c : Client σ Deployment) (st : σ) (m : MultiClusterHub)
    (cache : CacheSpec) (dep : Deployment) : EnsureResult σ Deployment :=
  let ref : NamespacedName := ⟨dep.name, m.ns⟩
  match c.get st ref with
  | .error e =>
    if e.isNotFound then
      match c.create st dep with
      | (some ce, st') => ⟨st', [.get ref, .create dep], some emptyResult, some ce⟩
      | (none, st') => ⟨st', [.get ref, .create dep], none, none⟩
    else
      ⟨st, [.get ref], some emptyResult, some e⟩
  | .ok found =>
    let vd : Option (Deployment × Bool) :=
      if found.name = HelmRepoName then some (hrValidate m cache found)
      else if found.name = APIServerName ∨ found.name = ControllerName
          ∨ found.name = WebhookName then some (mcmValidate m cache found)
      else none
    match vd with
    | none => ⟨st, [.get ref], none, none⟩
    | some (desired, needsUpdate) =>
      if needsUpdate then
        match c.update st desired with
        | (some ue, st') => ⟨st', [.get ref, .update desired], some emptyResult, some ue⟩
        | (none, st') => ⟨st', [.get ref, .update desired], none, none⟩
      else
        ⟨st, [.get ref], none, none⟩

/-- `rest.Config` as produced by `config.GetConfig`, opaque here. -/
structure RestConfig where
  host : String
deriving DecidableEq, Repr

/-- `discovery.DiscoveryClient`, opaque here. -/
structure DiscoveryClient where
  cfg : RestConfig
deriving DecidableEq, Repr

/-- `schema.GroupVersion`. -/
structure GroupVersion where
  group : String
  version : String
deriving DecidableEq, Repr

/-- `apiReady`: build the rest config (`config.GetConfig`), build the
discovery client (`discovery.NewDiscoveryClientForConfig`), then ask
`discovery.ServerSupportsVersion`.  A failure of either construction step
returns `(&Result{}, err)`; ANY error from `ServerSupportsVersion` (the only
step that talks to the discovery endpoint) returns
`(&Result{RequeueAfter: 10s}, nil)`; success returns `(nil, nil)`.  The three
external collaborators are passed in as function arguments. -/
def apiReady (getConfig : Except KErr RestConfig)
    (newDiscoveryClientForConfig : RestConfig → Except KErr DiscoveryClient)
    (serverSupportsVersion : DiscoveryClient → GroupVersion → Option KErr)
    (gv : GroupVersion) : Option ReconcileResult × Option KErr :=
  match getConfig with
  | .error e => (some emptyResult, some e)
  | .ok cfg =>
    match newDiscoveryClientForConfig cfg with
    | .error e => (some emptyResult, some e)
    | .ok c =>
      match serverSupportsVersion c gv with
      | some _ => (some ⟨false, 10⟩, none)
      | none => (none, none)

/-- Modelled from the spec: `utils.AddInstallerLabel` (utils package, not in
the provided source) attaches the provenance labels recording the installing
owner's name and namespace to the object's label map. -/
def AddInstallerLabel (u : Secret) (name ns : String) : Secret :=
  { u with labels := ("installer.name", name) :: ("installer.namespace", ns) :: u.labels }

/-- `copyPullSecret`: Get the source secret at
(m.Spec.ImagePullSecret, m.Namespace) — ANY error is returned as
`(&Result{}, err)`; set the target namespace and clear self-link, resource
version and UID; convert with `utils.CoreToUnstructured` (external, passed in
as `conv`; conversion failure → `(&Result{}, err)`); attach the installer
label; Get in the target namespace; create only when that Get failed with
IsNotFound (create failure → `(&Result{}, err)`); in every remaining case —
target found, OR target Get failed with a non-notFound error — fall through
to `(nil, nil)`. -/
def copyPullSecret (conv : Secret → Except KErr Secret)
    (c : Client σ Secret) (st : σ) (m : MultiClusterHub)
    (newNS : String) : EnsureResult σ Secret :=
  let srcRef : NamespacedName := ⟨m.imagePullSecret, m.ns⟩
  match c.get st srcRef with
  | .error e => ⟨st, [.get srcRef], some emptyResult, some e⟩
  | .ok pullSecret =>
    let ps : Secret :=
      { pullSecret with ns := newNS, selfLink := "", resourceVersion := "", uid := "" }
    match conv ps with
    | .error e => ⟨st, [.get srcRef], some emptyResult, some e⟩
    | .ok u0 =>
      let u := AddInstallerLabel u0 m.name m.ns
      let tgtRef : NamespacedName := ⟨u.name, newNS⟩
      match c.get st tgtRef with
      | .error e =>
        if e.isNotFound then
          match c.create st u with
          | (some ce, st') => ⟨st', [.get srcRef, .get tgtRef, .create u], some emptyResult, some ce⟩
          | (none, st') => ⟨st', [.get srcRef, .get tgtRef, .create u], none, none⟩
        else
          ⟨st, [.get srcRef, .get tgtRef], none, none⟩
      | .ok _ => ⟨st, [.get srcRef, .get tgtRef], none, none⟩

/-- Modelled from the spec: `utils.CoreToUnstructured` (utils package, not in
the provided source) converts a typed Secret into its unstructured
representation carrying the same fields; on a well-formed in-memory Secret
the marshalling round trip succeeds. -/
def CoreToUnstructured (s : Secret) : Except KErr Secret := .ok s

/-- The result of `os.Stat(path)`: success (carrying `info.IsDir()`), a
not-exist error (recognised by `os.IsNotExist`), or any other error (e.g. a
permission error), in which case the returned `FileInfo` is nil. -/
inductive StatResult where
  | ok (isDir : Bool)
  | errNotExist
  | errOther (msg : String)
deriving DecidableEq, Repr

/-- A computation that either returns a value or aborts the process with a
runtime panic (modelling a Go nil-pointer dereference). -/
inductive PanicOr (α : Type) where
  | panicked (msg : String)
  | ok (a : α)
deriving DecidableEq, Repr

/-- `fileExists`: `info, err := os.Stat(path)`; if `os.IsNotExist(err)` return
false; otherwise return `!info.IsDir()`.  When Stat failed with an error that
is NOT a not-exist error, `os.IsNotExist(err)` is false and `info` is nil, so
`info.IsDir()` dereferences a nil interface: a runtime panic, modelled as
`PanicOr.panicked`. -/
def fileExists (stat : StatResult) : PanicOr Bool :=
  match stat with
  | .errNotExist => .ok false
  | .ok isDir => .ok (!isDir)
  | .errOther _ => .panicked "runtime error: invalid memory address or nil pointer dereference"

/-- `readFileRaw`: if `!fileExists(path)` return a fresh does-not-exist error;
otherwise `ioutil.ReadFile` (external, its result passed in as `readResult`)
and propagate its error.  A panic in `fileExists` propagates. -/
def readFileRaw (stat : StatResult) (readResult : Except KErr String)
    (path : String) : PanicOr (Except KErr String) :=
  match fileExists stat with
  | .panicked m => .panicked m
  | .ok false => .ok (.error (.other ("File" ++ path ++ "does not exist")))
  | .ok true =>
    match readResult with
    | .error e => .ok (.error e)
    | .ok data => .ok (.ok data)

/-- `ReadComponentVersionFile`: `os.UserHomeDir()` (external, passed in as
`homeDir`; failure → `("", err)`), then `readFileRaw(home + "/COMPONENT_VERSION")`
(failure → `("", err)`), then `strings.TrimSpace` of the data.  A panic in
`readFileRaw` propagates. -/
def ReadComponentVersionFile (homeDir : Except KErr String) (stat : StatResult)
    (readResult : Except KErr String) : PanicOr (Except KErr String) :=
  match homeDir with
  | .error e => .ok (.error e)
  | .ok home =>
    match readFileRaw stat readResult (home ++ "/COMPONENT_VERSION") with
    | .panicked m => .panicked m
    | .ok (.error e) => .ok (.error e)
    | .ok (.ok data) => .ok (.ok data.trim)

/-- An honest in-memory resource store: an association list from
(name, namespace) keys to resources. -/
def lookupStore (st : List (NamespacedName × α)) (ref : NamespacedName) : Option α :=
  match st with
  | [] => none
  | (k, v) :: rest => if k = ref then some v else lookupStore rest ref

def removeStore (st : List (NamespacedName × α)) (ref : NamespacedName) :
    List (NamespacedName × α) :=
  match st with
  | [] => []
  | (k, v) :: rest => if k = ref then removeStore rest ref else (k, v) :: removeStore rest ref

/-- Honest store Get: the stored resource, or a notFound error. -/
def storeGet (st : List (NamespacedName × α)) (ref : NamespacedName) : Except KErr α :=
  match lookupStore st ref with
  | some v => .ok v
  | none => .error .notFound

/-- Honest store Create: AlreadyExists error when the key is taken, otherwise
insert. -/
def storeCreate (key : α → NamespacedName) (st : List (NamespacedName × α))
    (x : α) : Option KErr × List (NamespacedName × α) :=
  match lookupStore st (key x) with
  | some _ => (some (.other "AlreadyExists"), st)
  | none => (none, (key x, x) :: st)

/-- Honest store Update: notFound error when the key is absent, otherwise
replace. -/
def storeUpdate (key : α → NamespacedName) (st : List (NamespacedName × α))
    (x : α) : Option KErr × List (NamespacedName × α) :=
  match lookupStore st (key x) with
  | some _ => (none, (key x, x) :: removeStore st (key x))
  | none => (some .notFound, st)

/-- The honest client over the in-memory store. -/
def storeClient (key : α → NamespacedName) :
    Client (List (NamespacedName × α)) α :=
  ⟨storeGet, storeCreate key, storeUpdate key⟩

def secretKey (s : Secret) : NamespacedName := ⟨s.name, s.ns⟩

def serviceKey (s : Service) : NamespacedName := ⟨s.name, s.ns⟩

def deploymentKey (d : Deployment) : NamespacedName := ⟨d.name, d.ns⟩

def unstructuredKey (u : Unstructured) : NamespacedName := ⟨u.name, u.ns⟩

/-- Concrete fixtures used by witnesses and counterexamples. -/
def m0 : MultiClusterHub := ⟨"mch", "open-cluster-management", "uid-1234", "pull-secret"⟩

def m0NoUID : MultiClusterHub := ⟨"mch", "open-cluster-management", "", "pull-secret"⟩

def s0 : Secret :=
  ⟨"pull-secret", "open-cluster-management", "/api/v1/s0", "42", "uid-s0", [],
    [(".dockerconfigjson", "creds")]⟩

def u0 : Unstructured := ⟨"app-sub", "open-cluster-management", "Subscription", [], "spec-a"⟩

/-- A client whose Get always fails with a non-notFound error. -/
def errClient (α : Type) : Client Unit α :=
  ⟨fun _ _ => .error (.other "boom"), fun st _ => (none, st), fun st _ => (none, st)⟩

theorem ensureSecret_create_only_notFound {σ : Type} (c : Client σ Secret) (st : σ)
    (m : MultiClusterHub) (s x : Secret)
    (hx : Call.create x ∈ (ensureSecret c st m s).calls) :
    c.get st ⟨s.name, m.ns⟩ = Except.error KErr.notFound := by
  simp only [ensureSecret] at hx
  cases hget : c.get st ⟨s.name, m.ns⟩ with
  | ok v =>
    rw [hget] at hx
    simp at hx
  | error e =>
    rw [hget] at hx
    cases e with
    | notFound => rfl
    | other msg => simp [KErr.isNotFound] at hx

theorem ensureService_create_only_notFound {σ : Type} (c : Client σ Service) (st : σ)
    (m : MultiClusterHub) (s : Service) (x : Service)
    (hx : Call.create x ∈ (ensureService c st m s).calls) :
    c.get st ⟨s.name, m.ns⟩ = Except.error KErr.notFound := by
  simp only [ensureService] at hx
  cases hget : c.get st ⟨s.name, m.ns⟩ with
  | ok v =>
    rw [hget] at hx
    simp at hx
  | error e =>
    rw [hget] at hx
    cases e with
    | notFound => rfl
    | other msg => simp [KErr.isNotFound] at hx

theorem ensureChannel_create_only_notFound {σ : Type} (c : Client σ Unstructured) (st : σ)
    (m : MultiClusterHub) (u x : Unstructured)
    (hx : Call.create x ∈ (ensureChannel c st m u).calls) :
    c.get st ⟨u.name, m.ns⟩ = Except.error KErr.notFound := by
  simp only [ensureChannel] at hx
  cases hget : c.get st ⟨u.name, m.ns⟩ with
  | ok v =>
    rw [hget] at hx
    simp at hx
  | error e =>
    rw [hget] at hx
    cases e with
    | notFound => rfl
    | other msg => simp [KErr.isNotFound] at hx

theorem ensureSubscription_create_only_notFound {σ : Type}
    (validate : Unstructured → Unstructured → Unstructured × Bool)
    (c : Client σ Unstructured) (st : σ)
    (m : MultiClusterHub) (u x : Unstructured)
    (hx : Call.create x ∈ (ensureSubscription validate c st m u).calls) :
    c.get st ⟨u.name, u.ns⟩ = Except.error KErr.notFound := by
  simp only [ensureSubscription] at hx
  cases hget : c.get st ⟨u.name, u.ns⟩ with
  | ok v =>
    rw [hget] at hx
    repeat' split at hx
    all_goals simp_all
  | error e =>
    rw [hget] at hx
    cases e with
    | notFound => rfl
    | other msg => simp [KErr.isNotFound] at hx

theorem ensureDeployment_create_only_notFound {σ : Type}
    (hrV mcmV : MultiClusterHub → CacheSpec → Deployment → Deployment × Bool)
    (c : Client σ Deployment) (st : σ) (m : MultiClusterHub) (cache : CacheSpec)
    (dep x : Deployment)
    (hx : Call.create x ∈ (ensureDeployment hrV mcmV c st m cache dep).calls) :
    c.get st ⟨dep.name, m.ns⟩ = Except.error KErr.notFound := by
  simp only [ensureDeployment] at hx
  cases hget : c.get st ⟨dep.name, m.ns⟩ with
  | ok v =>
    rw [hget] at hx
    repeat' split at hx
    all_goals simp_all
  | error e =>
    rw [hget] at hx
    cases e with
    | notFound => rfl
    | other msg => simp [KErr.isNotFound] at hx

/-- C1: for every ensure operation (ensureDeployment, ensureService,
ensureSecret, ensureChannel, ensureSubscription), a create against the store
is attempted only when the initial fetch returned a not-found error (last
five conjuncts); and for any fetch error that is not not-found, the
operation returns the Failed shape `(&Result{}, err)` with the fetch error
propagated unmodified, issuing no create or update call — its store trace is
exactly the single Get (first five conjuncts). -/
theorem C1_fetch_error_not_treated_as_absent
    {σ1 σ2 σ3 σ4 σ5 : Type}
    (hrV mcmV : MultiClusterHub → CacheSpec → Deployment → Deployment × Bool)
    (validate : Unstructured → Unstructured → Unstructured × Bool)
    (cD : Client σ1 Deployment) (stD : σ1) (cache : CacheSpec) (dep : Deployment)
    (cV : Client σ2 Service) (stV : σ2) (svc : Service)
    (cS : Client σ3 Secret) (stS : σ3) (sec : Secret)
    (cC : Client σ4 Unstructured) (stC : σ4) (ch : Unstructured)
    (cU : Client σ5 Unstructured) (stU : σ5) (sub : Unstructured)
    (m : MultiClusterHub) (e1 e2 e3 e4 e5 : KErr)
    (h1 : cD.get stD ⟨dep.name, m.ns⟩ = .error e1) (n1 : e1.isNotFound = false)
    (h2 : cV.get stV ⟨svc.name, m.ns⟩ = .error e2) (n2 : e2.isNotFound = false)
    (h3 : cS.get stS ⟨sec.name, m.ns⟩ = .error e3) (n3 : e3.isNotFound = false)
    (h4 : cC.get stC ⟨ch.name, m.ns⟩ = .error e4) (n4 : e4.isNotFound = false)
    (h5 : cU.get stU ⟨sub.name, sub.ns⟩ = .error e5) (n5 : e5.isNotFound = false) :
    ensureDeployment hrV mcmV cD stD m cache dep
      = ⟨stD, [.get ⟨dep.name, m.ns⟩], some emptyResult, some e1⟩
    ∧ ensureService cV stV m svc
      = ⟨stV, [.get ⟨svc.name, m.ns⟩], some emptyResult, some e2⟩
    ∧ ensureSecret cS stS m sec
      = ⟨stS, [.get ⟨sec.name, m.ns⟩], some emptyResult, some e3⟩
    ∧ ensureChannel cC stC m ch
      = ⟨stC, [.get ⟨ch.name, m.ns⟩], some emptyResult, some e4⟩
    ∧ ensureSubscription validate cU stU m sub
      = ⟨stU, [.get ⟨sub.name, sub.ns⟩], some emptyResult, some e5⟩
    ∧ (∀ (c : Client σ1 Deployment) (st : σ1) (m' : MultiClusterHub)
        (cc : CacheSpec) (d x : Deployment),
        Call.create x ∈ (ensureDeployment hrV mcmV c st m' cc d).calls →
        c.get st ⟨d.name, m'.ns⟩ = Except.error KErr.notFound)
    ∧ (∀ (c : Client σ2 Service) (st : σ2) (m' : MultiClusterHub) (s x : Service),
        Call.create x ∈ (ensureService c st m' s).calls →
        c.get st ⟨s.name, m'.ns⟩ = Except.error KErr.notFound)
    ∧ (∀ (c : Client σ3 Secret) (st : σ3) (m' : MultiClusterHub) (s x : Secret),
        Call.create x ∈ (ensureSecret c st m' s).calls →
        c.get st ⟨s.name, m'.ns⟩ = Except.error KErr.notFound)
    ∧ (∀ (c : Client σ4 Unstructured) (st : σ4) (m' : MultiClusterHub) (u x : Unstructured),
        Call.create x ∈ (ensureChannel c st m' u).calls →
        c.get st ⟨u.name, m'.ns⟩ = Except.error KErr.notFound)
    ∧ (∀ (c : Client σ5 Unstructured) (st : σ5) (m' : MultiClusterHub) (u x : Unstructured),
        Call.create x ∈ (ensureSubscription validate c st m' u).calls →
        c.get st ⟨u.name, u.ns⟩ = Except.error KErr.notFound) := by
  refine ⟨?_, ?_, ?_, ?_, ?_, ?_, ?_, ?_, ?_, ?_⟩
  · simp [ensureDeployment, h1, n1]
  · simp [ensureService, h2, n2]
  · simp [ensureSecret, h3, n3]
  · simp [ensureChannel, h4, n4]
  · simp [ensureSubscription, h5, n5]
  · exact fun c st m' cc d x hx => ensureDeployment_create_only_notFound hrV mcmV c st m' cc d x hx
  · exact fun c st m' s x hx => ensureService_create_only_notFound c st m' s x hx
  · exact fun c st m' s x hx => ensureSecret_create_only_notFound c st m' s x hx
  · exact fun c st m' u x hx => ensureChannel_create_only_notFound c st m' u x hx
  · exact fun c st m' u x hx => ensureSubscription_create_only_notFound validate c st m' u x hx

/-- C1 witness: a client whose Get fails with the non-notFound error "boom"
makes every ensure operation return `(&Result{}, some "boom")` after exactly
one Get. -/
theorem C1_witness :
    ensureSecret (errClient Secret) () m0 s0
      = ⟨(), [.get ⟨"pull-secret", "open-cluster-management"⟩], some emptyResult,
          some (KErr.other "boom")⟩
    ∧ ensureService (errClient Service) () m0 ⟨"mcm-apiserver-svc", "open-cluster-management", "p443"⟩
      = ⟨(), [.get ⟨"mcm-apiserver-svc", "open-cluster-management"⟩], some emptyResult,
          some (KErr.other "boom")⟩
    ∧ ensureSubscription (fun f _ => (f, false)) (errClient Unstructured) () m0 u0
      = ⟨(), [.get ⟨"app-sub", "open-cluster-management"⟩], some emptyResult,
          some (KErr.other "boom")⟩ := by
  have T := C1_fetch_error_not_treated_as_absent
    (fun _ _ d => (d, false)) (fun _ _ d => (d, false)) (fun f _ => (f, false))
    (errClient Deployment) () ⟨[]⟩ ⟨"multiclusterhub-repo", "open-cluster-management", "pay"⟩
    (errClient Service) () ⟨"mcm-apiserver-svc", "open-cluster-management", "p443"⟩
    (errClient Secret) () s0
    (errClient Unstructured) () ⟨"ch", "open-cluster-management", "Channel", [], "p"⟩
    (errClient Unstructured) () u0
    m0 (.other "boom") (.other "boom") (.other "boom") (.other "boom") (.other "boom")
    rfl rfl rfl rfl rfl rfl rfl rfl rfl rfl
  exact ⟨T.2.2.1, T.2.1, T.2.2.2.2.1⟩

theorem ensureService_found {σ : Type} (c : Client σ Service) (st : σ)
    (m : MultiClusterHub) (s v : Service)
    (h : c.get st ⟨s.name, m.ns⟩ = .ok v) :
    ensureService c st m s = ⟨st, [.get ⟨s.name, m.ns⟩], none, none⟩ := by
  simp [ensureService, h]

theorem ensureSecret_found {σ : Type} (c : Client σ Secret) (st : σ)
    (m : MultiClusterHub) (s v : Secret)
    (h : c.get st ⟨s.name, m.ns⟩ = .ok v) :
    ensureSecret c st m s = ⟨st, [.get ⟨s.name, m.ns⟩], none, none⟩ := by
  simp [ensureSecret, h]

/-- C2 counterexample: the claim predicts "ensuring a Secret with an empty
owner UID makes zero calls to Create", but `ensureSecret` has no owner-UID
guard: against an empty store and a MultiClusterHub with UID `""` it still
issues the Create (outcome Created, one create call). -/
theorem C2_counterexample :
    m0NoUID.uid = ""
    ∧ (ensureSecret (storeClient secretKey) [] m0NoUID s0).calls
        = [.get ⟨"pull-secret", "open-cluster-management"⟩, .create s0]
    ∧ countCreates (ensureSecret (storeClient secretKey) [] m0NoUID s0).calls = 1
    ∧ outcomeOf (ensureSecret (storeClient secretKey) [] m0NoUID s0) = .created :=
  ⟨rfl, rfl, rfl, rfl⟩

/-- C2 (amended): only `ensureSubscription` guards creation on the owner UID —
with a not-found fetch and `m.UID = ""` it skips the create and returns
`(nil, nil)` (a NoOp success, not an error); the other ensure operations, in
particular `ensureSecret`, issue the create regardless of the owner UID. -/
theorem C2_uid_guard_only_in_subscription
    {σ1 σ2 : Type}
    (validate : Unstructured → Unstructured → Unstructured × Bool)
    (cU : Client σ1 Unstructured) (stU : σ1) (m : MultiClusterHub) (u : Unstructured)
    (cS : Client σ2 Secret) (stS : σ2) (m' : MultiClusterHub) (s : Secret)
    (h1 : cU.get stU ⟨u.name, u.ns⟩ = .error .notFound)
    (h2 : m.uid = "")
    (h3 : cS.get stS ⟨s.name, m'.ns⟩ = .error .notFound) :
    ensureSubscription validate cU stU m u = ⟨stU, [.get ⟨u.name, u.ns⟩], none, none⟩
    ∧ countCreates (ensureSubscription validate cU stU m u).calls = 0
    ∧ outcomeOf (ensureSubscription validate cU stU m u) = .noOp
    ∧ Call.create s ∈ (ensureSecret cS stS m' s).calls := by
  have e1 : ensureSubscription validate cU stU m u
      = ⟨stU, [.get ⟨u.name, u.ns⟩], none, none⟩ := by
    simp [ensureSubscription, h1, h2, KErr.isNotFound]
  refine ⟨e1, by rw [e1]; rfl, by rw [e1]; rfl, ?_⟩
  simp only [ensureSecret]
  rw [h3]
  simp only [KErr.isNotFound]
  rcases hc : cS.create stS s with ⟨oe, st'⟩
  cases oe <;> simp

/-- C2 witness: against empty honest stores, `ensureSubscription` with owner
UID `""` performs no create and returns `(nil, nil)`, while `ensureSecret`
issues the create. -/
theorem C2_witness :
    ensureSubscription (fun f _ => (f, false)) (storeClient unstructuredKey) [] m0NoUID u0
      = ⟨[], [.get ⟨"app-sub", "open-cluster-management"⟩], none, none⟩
    ∧ Call.create s0 ∈ (ensureSecret (storeClient secretKey) [] m0 s0).calls := by
  have T := C2_uid_guard_only_in_subscription (fun f _ => (f, false))
    (storeClient unstructuredKey) [] m0NoUID u0
    (storeClient secretKey) [] m0 s0 rfl rfl rfl
  exact ⟨T.1, T.2.2.2⟩

/-- C3 counterexample: the only step of `apiReady` that talks to the
discovery endpoint is `discovery.ServerSupportsVersion`; when that call fails
with a communication error such as "connection refused" (the discovery
endpoint cannot be reached), `apiReady` returns the 10-second requeue with a
nil error — not an error as the claim states. -/
theorem C3_counterexample :
    apiReady (.ok ⟨"https://api.cluster.local"⟩) (fun cfg => .ok ⟨cfg⟩)
      (fun _ _ => some (KErr.other "connection refused"))
      ⟨"apps.open-cluster-management.io", "v1"⟩
      = (some ⟨false, 10⟩, none) := rfl

/-- C3 (amended): `apiReady` returns `{RequeueAfter: 10s}` with no error
whenever `ServerSupportsVersion` reports ANY error — both when the API group
is unserved and when the discovery call itself fails; it returns an error
with no requeue-after delay exactly when loading the rest config or
constructing the discovery client fails; it returns `(nil, nil)` when the
group is confirmed served. -/
theorem C3_requeue_on_any_discovery_error
    (getConfig : Except KErr RestConfig)
    (nd : RestConfig → Except KErr DiscoveryClient)
    (sv : DiscoveryClient → GroupVersion → Option KErr) (gv : GroupVersion) :
    (∀ cfg c e, getConfig = .ok cfg → nd cfg = .ok c → sv c gv = some e →
      apiReady getConfig nd sv gv = (some ⟨false, 10⟩, none))
    ∧ (∀ cfg c, getConfig = .ok cfg → nd cfg = .ok c → sv c gv = none →
      apiReady getConfig nd sv gv = (none, none))
    ∧ (∀ e, getConfig = .error e →
      apiReady getConfig nd sv gv = (some ⟨false, 0⟩, some e))
    ∧ (∀ cfg e, getConfig = .ok cfg → nd cfg = .error e →
      apiReady getConfig nd sv gv = (some ⟨false, 0⟩, some e)) := by
  refine ⟨?_, ?_, ?_, ?_⟩ <;> intros <;> simp_all [apiReady, emptyResult]

/-- C3 witness: an unserved group yields the 10s requeue and no error; a
failing rest-config load yields the error and a zero requeue delay. -/
theorem C3_witness :
    apiReady (.ok ⟨"https://api.cluster.local"⟩) (fun cfg => .ok ⟨cfg⟩)
      (fun _ _ => some (KErr.other "server does not support version")) ⟨"g", "v1"⟩
      = (some ⟨false, 10⟩, none)
    ∧ apiReady (.error (KErr.other "no kubeconfig")) (fun cfg => .ok ⟨cfg⟩)
      (fun _ _ => none) ⟨"g", "v1"⟩
      = (some ⟨false, 0⟩, some (KErr.other "no kubeconfig")) := by
  have T1 := C3_requeue_on_any_discovery_error (.ok ⟨"https://api.cluster.local"⟩)
    (fun cfg => .ok ⟨cfg⟩) (fun _ _ => some (KErr.other "server does not support version"))
    ⟨"g", "v1"⟩
  have T2 := C3_requeue_on_any_discovery_error (.error (KErr.other "no kubeconfig"))
    (fun cfg => .ok ⟨cfg⟩) (fun _ _ => none) ⟨"g", "v1"⟩
  exact ⟨T1.1 ⟨"https://api.cluster.local"⟩ ⟨⟨"https://api.cluster.local"⟩⟩
    (KErr.other "server does not support version") rfl rfl rfl,
    T2.2.2.1 (KErr.other "no kubeconfig") rfl⟩

def svcDesired : Service := ⟨"mcm-apiserver-svc", "open-cluster-management", "port 443"⟩

def svcObserved : Service := ⟨"mcm-apiserver-svc", "open-cluster-management", "port 80"⟩

def svcStore0 : List (NamespacedName × Service) :=
  [(⟨"mcm-apiserver-svc", "open-cluster-management"⟩, svcObserved)]

/-- C4 counterexample: a Service is present in the store and differs from the
desired one only in its policy-produced spec payload, yet `ensureService`
issues zero writes and returns `(nil, nil)` (NoOp) — it has no diff-and-update
path at all, so the claim's "this holds for … ensureService" fails. -/
theorem C4_counterexample :
    storeGet svcStore0 ⟨svcDesired.name, m0.ns⟩ = .ok svcObserved
    ∧ svcObserved ≠ svcDesired
    ∧ svcObserved.name = svcDesired.name ∧ svcObserved.ns = svcDesired.ns
    ∧ ensureService (storeClient serviceKey) svcStore0 m0 svcDesired
        = ⟨svcStore0, [.get ⟨"mcm-apiserver-svc", "open-cluster-management"⟩], none, none⟩
    ∧ countWrites (ensureService (storeClient serviceKey) svcStore0 m0 svcDesired).calls = 0
    ∧ outcomeOf (ensureService (storeClient serviceKey) svcStore0 m0 svcDesired) = .noOp := by
  refine ⟨rfl, ?_, rfl, rfl, rfl, rfl, rfl⟩
  decide

/-- C4 (amended): the diff-and-update path exists only for `ensureDeployment`
(for found deployments whose name matches a registered strategy — the
helm-repo name or one of the three mcm names) and `ensureSubscription`:
there, when the strategy reports `needsUpdate`, the operation issues exactly
one update whose argument is verbatim the strategy's replacement (hence
preserving every observed field the strategy preserves) and returns success
when the update succeeds; `ensureService` and `ensureSecret` never update —
a present resource yields `(nil, nil)` with zero writes. -/
theorem C4_update_dispatch
    {σ1 σ1b σ2 σ3 σ4 : Type}
    (hrV mcmV : MultiClusterHub → CacheSpec → Deployment → Deployment × Bool)
    (validate : Unstructured → Unstructured → Unstructured × Bool)
    (cD : Client σ1 Deployment) (stD : σ1) (m : MultiClusterHub) (cache : CacheSpec)
    (dep found d' : Deployment)
    (hget : cD.get stD ⟨dep.name, m.ns⟩ = .ok found)
    (hname : found.name = HelmRepoName)
    (hval : hrV m cache found = (d', true))
    (cM : Client σ1b Deployment) (stM : σ1b) (m2 : MultiClusterHub) (cache2 : CacheSpec)
    (dep2 found2 d2 : Deployment)
    (hget2 : cM.get stM ⟨dep2.name, m2.ns⟩ = .ok found2)
    (hname2 : found2.name = APIServerName ∨ found2.name = ControllerName
        ∨ found2.name = WebhookName)
    (hval2 : mcmV m2 cache2 found2 = (d2, true))
    (cU : Client σ4 Unstructured) (stU : σ4) (m3 : MultiClusterHub)
    (sub found3 u2 : Unstructured)
    (hget3 : cU.get stU ⟨sub.name, sub.ns⟩ = .ok found3)
    (hval3 : validate found3 sub = (u2, true)) :
    (ensureDeployment hrV mcmV cD stD m cache dep).calls
      = [.get ⟨dep.name, m.ns⟩, .update d']
    ∧ ((cD.update stD d').1 = none →
        ensureDeployment hrV mcmV cD stD m cache dep
          = ⟨(cD.update stD d').2, [.get ⟨dep.name, m.ns⟩, .update d'], none, none⟩
        ∧ outcomeOf (ensureDeployment hrV mcmV cD stD m cache dep) = .updated)
    ∧ (ensureDeployment hrV mcmV cM stM m2 cache2 dep2).calls
      = [.get ⟨dep2.name, m2.ns⟩, .update d2]
    ∧ ((cM.update stM d2).1 = none →
        ensureDeployment hrV mcmV cM stM m2 cache2 dep2
          = ⟨(cM.update stM d2).2, [.get ⟨dep2.name, m2.ns⟩, .update d2], none, none⟩
        ∧ outcomeOf (ensureDeployment hrV mcmV cM stM m2 cache2 dep2) = .updated)
    ∧ (ensureSubscription validate cU stU m3 sub).calls
      = [.get ⟨sub.name, sub.ns⟩, .update u2]
    ∧ ((cU.update stU u2).1 = none →
        ensureSubscription validate cU stU m3 sub
          = ⟨(cU.update stU u2).2, [.get ⟨sub.name, sub.ns⟩, .update u2], none, none⟩
        ∧ outcomeOf (ensureSubscription validate cU stU m3 sub) = .updated)
    ∧ (∀ (cV : Client σ2 Service) (stV : σ2) (m' : MultiClusterHub) (s v : Service),
        cV.get stV ⟨s.name, m'.ns⟩ = .ok v →
        ensureService cV stV m' s = ⟨stV, [.get ⟨s.name, m'.ns⟩], none, none⟩
        ∧ countWrites (ensureService cV stV m' s).calls = 0)
    ∧ (∀ (cS : Client σ3 Secret) (stS : σ3) (m' : MultiClusterHub) (s v : Secret),
        cS.get stS ⟨s.name, m'.ns⟩ = .ok v →
        ensureSecret cS stS m' s = ⟨stS, [.get ⟨s.name, m'.ns⟩], none, none⟩
        ∧ countWrites (ensureSecret cS stS m' s).calls = 0) := by
  have hbody : ensureDeployment hrV mcmV cD stD m cache dep
      = (match cD.update stD d' with
         | (some ue, st') =>
            ⟨st', [.get ⟨dep.name, m.ns⟩, .update d'], some emptyResult, some ue⟩
         | (none, st') =>
            ⟨st', [.get ⟨dep.name, m.ns⟩, .update d'], none, none⟩) := by
    simp only [ensureDeployment]
    rw [hget]
    simp [hname, hval]
  have hne : found2.name ≠ HelmRepoName := by
    rcases hname2 with h | h | h <;> rw [h] <;> decide
  have hbodyM : ensureDeployment hrV mcmV cM stM m2 cache2 dep2
      = (match cM.update stM d2 with
         | (some ue, st') =>
            ⟨st', [.get ⟨dep2.name, m2.ns⟩, .update d2], some emptyResult, some ue⟩
         | (none, st') =>
            ⟨st', [.get ⟨dep2.name, m2.ns⟩, .update d2], none, none⟩) := by
    simp only [ensureDeployment]
    rw [hget2]
    simp [hne, if_pos hname2, hval2]
  have hbodyU : ensureSubscription validate cU stU m3 sub
      = (match cU.update stU u2 with
         | (some ue, st') =>
            ⟨st', [.get ⟨sub.name, sub.ns⟩, .update u2], some emptyResult, some ue⟩
         | (none, st') =>
            ⟨st', [.get ⟨sub.name, sub.ns⟩, .update u2], none, none⟩) := by
    simp only [ensureSubscription]
    rw [hget3]
    simp [hval3]
  refine ⟨?_, ?_, ?_, ?_, ?_, ?_, ?_, ?_⟩
  · rw [hbody]
    rcases cD.update stD d' with ⟨oe, st'⟩
    cases oe <;> rfl
  · intro hsucc
    rcases hu : cD.update stD d' with ⟨oe, st'⟩
    rw [hu] at hsucc hbody
    simp at hsucc
    subst hsucc
    rw [hbody]
    exact ⟨rfl, rfl⟩
  · rw [hbodyM]
    rcases cM.update stM d2 with ⟨oe, st'⟩
    cases oe <;> rfl
  · intro hsucc
    rcases hu : cM.update stM d2 with ⟨oe, st'⟩
    rw [hu] at hsucc hbodyM
    simp at hsucc
    subst hsucc
    rw [hbodyM]
    exact ⟨rfl, rfl⟩
  · rw [hbodyU]
    rcases cU.update stU u2 with ⟨oe, st'⟩
    cases oe <;> rfl
  · intro hsucc
    rcases hu : cU.update stU u2 with ⟨oe, st'⟩
    rw [hu] at hsucc hbodyU
    simp at hsucc
    subst hsucc
    rw [hbodyU]
    exact ⟨rfl, rfl⟩
  · intro cV stV m' s v h
    exact ⟨ensureService_found cV stV m' s v h, by rw [ensureService_found cV stV m' s v h]; rfl⟩
  · intro cS stS m' s v h
    exact ⟨ensureSecret_found cS stS m' s v h, by rw [ensureSecret_found cS stS m' s v h]; rfl⟩

def depObserved : Deployment := ⟨"multiclusterhub-repo", "open-cluster-management", "image-old"⟩

def depDesired : Deployment := ⟨"multiclusterhub-repo", "open-cluster-management", "image-new"⟩

def depStore0 : List (NamespacedName × Deployment) :=
  [(⟨"multiclusterhub-repo", "open-cluster-management"⟩, depObserved)]

/-- A diff strategy fixture: replace the image payload, report needsUpdate. -/
def hrV0 : MultiClusterHub → CacheSpec → Deployment → Deployment × Bool :=
  fun _ _ d => (⟨d.name, d.ns, "image-new"⟩, true)

def depMcmObserved : Deployment := ⟨"mcm-apiserver", "open-cluster-management", "image-old"⟩

def depMcmDesired : Deployment := ⟨"mcm-apiserver", "open-cluster-management", "image-new"⟩

def depStoreM : List (NamespacedName × Deployment) :=
  [(⟨"mcm-apiserver", "open-cluster-management"⟩, depMcmObserved)]

def subObserved : Unstructured := ⟨"app-sub", "open-cluster-management", "Subscription", [], "spec-old"⟩

def subUpdated : Unstructured := ⟨"app-sub", "open-cluster-management", "Subscription", [], "spec-a"⟩

def subStore0 : List (NamespacedName × Unstructured) :=
  [(⟨"app-sub", "open-cluster-management"⟩, subObserved)]

/-- A subscription diff strategy fixture: adopt the desired payload, report
needsUpdate. -/
def validate0 : Unstructured → Unstructured → Unstructured × Bool :=
  fun f u => (⟨f.name, f.ns, f.kind, f.labels, u.payload⟩, true)

/-- C4 witness: against honest stores holding a stale helm-repo deployment, a
stale mcm-apiserver deployment and a stale subscription, each operation
issues exactly the strategy's replacement as one update and ends Updated; a
present Service yields NoOp with no writes. -/
theorem C4_witness :
    ensureDeployment hrV0 hrV0 (storeClient deploymentKey) depStore0 m0 ⟨[]⟩ depDesired
      = ⟨[(⟨"multiclusterhub-repo", "open-cluster-management"⟩, depDesired)],
          [.get ⟨"multiclusterhub-repo", "open-cluster-management"⟩, .update depDesired],
          none, none⟩
    ∧ outcomeOf (ensureDeployment hrV0 hrV0 (storeClient deploymentKey) depStore0 m0 ⟨[]⟩ depDesired)
      = .updated
    ∧ ensureDeployment hrV0 hrV0 (storeClient deploymentKey) depStoreM m0 ⟨[]⟩ depMcmDesired
      = ⟨[(⟨"mcm-apiserver", "open-cluster-management"⟩, depMcmDesired)],
          [.get ⟨"mcm-apiserver", "open-cluster-management"⟩, .update depMcmDesired],
          none, none⟩
    ∧ outcomeOf (ensureDeployment hrV0 hrV0 (storeClient deploymentKey) depStoreM m0 ⟨[]⟩ depMcmDesired)
      = .updated
    ∧ ensureSubscription validate0 (storeClient unstructuredKey) subStore0 m0 u0
      = ⟨[(⟨"app-sub", "open-cluster-management"⟩, subUpdated)],
          [.get ⟨"app-sub", "open-cluster-management"⟩, .update subUpdated],
          none, none⟩
    ∧ outcomeOf (ensureSubscription validate0 (storeClient unstructuredKey) subStore0 m0 u0)
      = .updated
    ∧ ensureService (storeClient serviceKey) svcStore0 m0 svcDesired
      = ⟨svcStore0, [.get ⟨"mcm-apiserver-svc", "open-cluster-management"⟩], none, none⟩ := by
  have T := @C4_update_dispatch (List (NamespacedName × Deployment))
    (List (NamespacedName × Deployment)) (List (NamespacedName × Service))
    (List (NamespacedName × Secret)) (List (NamespacedName × Unstructured))
    hrV0 hrV0 validate0
    (storeClient deploymentKey) depStore0 m0 ⟨[]⟩ depDesired depObserved depDesired
    rfl rfl rfl
    (storeClient deploymentKey) depStoreM m0 ⟨[]⟩ depMcmDesired depMcmObserved depMcmDesired
    rfl (Or.inl rfl) rfl
    (storeClient unstructuredKey) subStore0 m0 u0 subObserved subUpdated
    rfl rfl
  have hu1 := T.2.1 rfl
  have hu2 := T.2.2.2.1 rfl
  have hu3 := T.2.2.2.2.2.1 rfl
  exact ⟨hu1.1, hu1.2, hu2.1, hu2.2, hu3.1, hu3.2,
    (T.2.2.2.2.2.2.1 (storeClient serviceKey) svcStore0 m0 svcDesired svcObserved rfl).1⟩

theorem AddInstallerLabel_name (u : Secret) (a b : String) :
    (AddInstallerLabel u a b).name = u.name := rfl

/-- C5: with the source secret fetched and converted, `copyPullSecret` onto a
target namespace where a secret of the same name already exists performs zero
write calls, leaves the store state untouched and returns `(nil, nil)`
(NoOp); onto a target namespace where it is absent it issues exactly one
create. -/
theorem C5_one_shot_propagation
    {σ : Type} (conv : Secret → Except KErr Secret)
    (c : Client σ Secret) (st : σ) (m : MultiClusterHub) (newNS : String)
    (src tgt : Secret)
    (hsrc : c.get st ⟨m.imagePullSecret, m.ns⟩ = .ok src)
    (hconv : conv { src with ns := newNS, selfLink := "", resourceVersion := "", uid := "" }
      = .ok tgt) :
    (∀ existing, c.get st ⟨tgt.name, newNS⟩ = .ok existing →
      copyPullSecret conv c st m newNS
        = ⟨st, [.get ⟨m.imagePullSecret, m.ns⟩, .get ⟨tgt.name, newNS⟩], none, none⟩
      ∧ countWrites (copyPullSecret conv c st m newNS).calls = 0
      ∧ outcomeOf (copyPullSecret conv c st m newNS) = .noOp)
    ∧ (c.get st ⟨tgt.name, newNS⟩ = .error .notFound →
      countCreates (copyPullSecret conv c st m newNS).calls = 1
      ∧ (copyPullSecret conv c st m newNS).calls
          = [.get ⟨m.imagePullSecret, m.ns⟩, .get ⟨tgt.name, newNS⟩,
              .create (AddInstallerLabel tgt m.name m.ns)]) := by
  constructor
  · intro existing hex
    have e1 : copyPullSecret conv c st m newNS
        = ⟨st, [.get ⟨m.imagePullSecret, m.ns⟩, .get ⟨tgt.name, newNS⟩], none, none⟩ := by
      simp [copyPullSecret, hsrc, hconv, AddInstallerLabel_name, hex]
    exact ⟨e1, by rw [e1]; rfl, by rw [e1]; rfl⟩
  · intro habs
    have e2 : (copyPullSecret conv c st m newNS).calls
        = [.get ⟨m.imagePullSecret, m.ns⟩, .get ⟨tgt.name, newNS⟩,
            .create (AddInstallerLabel tgt m.name m.ns)] := by
      simp only [copyPullSecret]
      rw [hsrc]
      simp only [hconv, AddInstallerLabel_name]
      rw [habs]
      simp only [KErr.isNotFound]
      rcases hc : c.create st (AddInstallerLabel tgt m.name m.ns) with ⟨oe, st'⟩
      cases oe <;> simp
    exact ⟨by rw [e2]; rfl, e2⟩

def tgtSecret0 : Secret := ⟨"pull-secret", "cert-manager", "", "", "uid-old", [], [("k", "old")]⟩

def pullStoreA : List (NamespacedName × Secret) :=
  [(⟨"pull-secret", "open-cluster-management"⟩, s0), (⟨"pull-secret", "cert-manager"⟩, tgtSecret0)]

def pullStoreB : List (NamespacedName × Secret) :=
  [(⟨"pull-secret", "open-cluster-management"⟩, s0)]

/-- C5 witness: against the honest store, propagation onto a namespace that
already holds the secret makes zero writes and returns `(nil, nil)`; onto an
empty target namespace it makes exactly one create. -/
theorem C5_witness :
    copyPullSecret CoreToUnstructured (storeClient secretKey) pullStoreA m0 "cert-manager"
      = ⟨pullStoreA, [.get ⟨"pull-secret", "open-cluster-management"⟩,
          .get ⟨"pull-secret", "cert-manager"⟩], none, none⟩
    ∧ countCreates (copyPullSecret CoreToUnstructured (storeClient secretKey) pullStoreB m0
        "cert-manager").calls = 1 := by
  have TA := C5_one_shot_propagation CoreToUnstructured (storeClient secretKey) pullStoreA m0
    "cert-manager" s0
    ⟨"pull-secret", "cert-manager", "", "", "", [], [(".dockerconfigjson", "creds")]⟩ rfl rfl
  have TB := C5_one_shot_propagation CoreToUnstructured (storeClient secretKey) pullStoreB m0
    "cert-manager" s0
    ⟨"pull-secret", "cert-manager", "", "", "", [], [(".dockerconfigjson", "creds")]⟩ rfl rfl
  exact ⟨(TA.1 tgtSecret0 rfl).1, (TB.2 rfl).1⟩

/-- C6: the secret handed to Create in the target namespace is the source
copy with the namespace set to the target, self-link / resource version / UID
cleared, the installer provenance labels attached, the name kept, and the
same data payload as the source. -/
theorem C6_copy_stripped_and_labelled
    {σ : Type} (c : Client σ Secret) (st : σ) (m : MultiClusterHub) (newNS : String)
    (src : Secret)
    (hsrc : c.get st ⟨m.imagePullSecret, m.ns⟩ = .ok src)
    (htgt : c.get st ⟨src.name, newNS⟩ = .error .notFound) :
    ∃ cs : Secret,
      (copyPullSecret CoreToUnstructured c st m newNS).calls
        = [.get ⟨m.imagePullSecret, m.ns⟩, .get ⟨src.name, newNS⟩, .create cs]
      ∧ cs.ns = newNS ∧ cs.selfLink = "" ∧ cs.resourceVersion = "" ∧ cs.uid = ""
      ∧ cs.name = src.name ∧ cs.data = src.data
      ∧ ("installer.name", m.name) ∈ cs.labels
      ∧ ("installer.namespace", m.ns) ∈ cs.labels := by
  refine ⟨AddInstallerLabel
    { src with ns := newNS, selfLink := "", resourceVersion := "", uid := "" } m.name m.ns,
    ?_, rfl, rfl, rfl, rfl, rfl, rfl, ?_, ?_⟩
  · simp only [copyPullSecret, CoreToUnstructured]
    rw [hsrc]
    simp only [AddInstallerLabel_name]
    rw [htgt]
    simp only [KErr.isNotFound]
    rcases hc : c.create st (AddInstallerLabel
      { src with ns := newNS, selfLink := "", resourceVersion := "", uid := "" } m.name m.ns)
      with ⟨oe, st'⟩
    cases oe <;> simp
  · exact List.mem_cons_self _ _
  · exact List.mem_cons_of_mem _ (List.mem_cons_self _ _)

/-- C6 witness: propagating the fixture pull secret into "cert-manager"
creates a secret with cleared identity fields, the target namespace, the
installer labels and the source's data. -/
theorem C6_witness :
    ∃ cs : Secret,
      (copyPullSecret CoreToUnstructured (storeClient secretKey) pullStoreB m0
          "cert-manager").calls
        = [.get ⟨"pull-secret", "open-cluster-management"⟩,
            .get ⟨"pull-secret", "cert-manager"⟩, .create cs]
      ∧ cs.ns = "cert-manager" ∧ cs.selfLink = "" ∧ cs.resourceVersion = "" ∧ cs.uid = ""
      ∧ cs.name = "pull-secret" ∧ cs.data = [(".dockerconfigjson", "creds")]
      ∧ ("installer.name", "mch") ∈ cs.labels
      ∧ ("installer.namespace", "open-cluster-management") ∈ cs.labels :=
  C6_copy_stripped_and_labelled (storeClient secretKey) pullStoreB m0 "cert-manager" s0 rfl rfl

/-- A client whose target-namespace Get fails with a non-notFound error while
the source Get succeeds. -/
def timeoutTargetClient : Client Unit Secret :=
  ⟨fun _ ref => if ref.ns = "cert-manager" then .error (.other "timeout") else .ok s0,
   fun st _ => (none, st), fun st _ => (none, st)⟩

/-- C7: `copyPullSecret`'s existence check against the target namespace fails
with the non-notFound error "timeout", yet the function falls through to
`return nil, nil`: the error is swallowed, the create is skipped, and the
caller sees success — contradicting the propagation policy the claim states
(the Ensure and CheckReady failure paths do return their errors, as proved
for C1/C3/C10). -/
theorem C7_target_check_error_swallowed :
    timeoutTargetClient.get () ⟨"pull-secret", "cert-manager"⟩
      = .error (KErr.other "timeout")
    ∧ (KErr.other "timeout").isNotFound = false
    ∧ copyPullSecret CoreToUnstructured timeoutTargetClient () m0 "cert-manager"
      = ⟨(), [.get ⟨"pull-secret", "open-cluster-management"⟩,
          .get ⟨"pull-secret", "cert-manager"⟩], none, none⟩
    ∧ countCreates (copyPullSecret CoreToUnstructured timeoutTargetClient () m0
        "cert-manager").calls = 0 :=
  ⟨rfl, rfl, rfl, rfl⟩

theorem ensureDeployment_found_noUpdate {σ : Type}
    (hrV mcmV : MultiClusterHub → CacheSpec → Deployment → Deployment × Bool)
    (c : Client σ Deployment) (st : σ) (m : MultiClusterHub) (cache : CacheSpec)
    (dep found : Deployment)
    (hget : c.get st ⟨dep.name, m.ns⟩ = .ok found)
    (hv1 : (hrV m cache found).2 = false)
    (hv2 : (mcmV m cache found).2 = false) :
    ensureDeployment hrV mcmV c st m cache dep
      = ⟨st, [.get ⟨dep.name, m.ns⟩], none, none⟩ := by
  simp only [ensureDeployment]
  rw [hget]
  by_cases h1 : found.name = HelmRepoName
  · rcases hp : hrV m cache found with ⟨d1, b1⟩
    rw [hp] at hv1
    simp at hv1
    subst hv1
    simp [h1, hp]
  · by_cases h2 : found.name = APIServerName ∨ found.name = ControllerName
        ∨ found.name = WebhookName
    · rcases hp : mcmV m cache found with ⟨d2, b2⟩
      rw [hp] at hv2
      simp at hv2
      subst hv2
      simp [h1, h2, hp]
    · simp [h1, h2]

/-- C8: starting from an honest store where the resource is absent, two
successive invocations with the same desired input and no external mutation
yield Created (one successful create, `(nil, nil)`) then NoOp (a single Get,
`(nil, nil)`, store unchanged) — never Created twice, never a spurious
Updated.  For `ensureDeployment` the second pass is NoOp provided the
registered strategies find the freshly-created deployment clean, which the
spec's strategy contract (needs-update only on a semantic difference in the
fields the strategy owns) guarantees. -/
theorem C8_ensure_twice_created_then_noop
    (stS : List (NamespacedName × Secret)) (m : MultiClusterHub) (s : Secret)
    (hns : s.ns = m.ns)
    (habs : lookupStore stS ⟨s.name, m.ns⟩ = none)
    (hrV mcmV : MultiClusterHub → CacheSpec → Deployment → Deployment × Bool)
    (stD : List (NamespacedName × Deployment)) (cache : CacheSpec) (dep : Deployment)
    (hnsD : dep.ns = m.ns)
    (habsD : lookupStore stD ⟨dep.name, m.ns⟩ = none)
    (hv1 : (hrV m cache dep).2 = false)
    (hv2 : (mcmV m cache dep).2 = false) :
    ensureSecret (storeClient secretKey) stS m s
      = ⟨(⟨s.name, s.ns⟩, s) :: stS, [.get ⟨s.name, m.ns⟩, .create s], none, none⟩
    ∧ outcomeOf (ensureSecret (storeClient secretKey) stS m s) = .created
    ∧ ensureSecret (storeClient secretKey) ((⟨s.name, s.ns⟩, s) :: stS) m s
      = ⟨(⟨s.name, s.ns⟩, s) :: stS, [.get ⟨s.name, m.ns⟩], none, none⟩
    ∧ outcomeOf (ensureSecret (storeClient secretKey) ((⟨s.name, s.ns⟩, s) :: stS) m s) = .noOp
    ∧ ensureDeployment hrV mcmV (storeClient deploymentKey) stD m cache dep
      = ⟨(⟨dep.name, dep.ns⟩, dep) :: stD, [.get ⟨dep.name, m.ns⟩, .create dep], none, none⟩
    ∧ outcomeOf (ensureDeployment hrV mcmV (storeClient deploymentKey) stD m cache dep)
      = .created
    ∧ ensureDeployment hrV mcmV (storeClient deploymentKey)
        ((⟨dep.name, dep.ns⟩, dep) :: stD) m cache dep
      = ⟨(⟨dep.name, dep.ns⟩, dep) :: stD, [.get ⟨dep.name, m.ns⟩], none, none⟩
    ∧ outcomeOf (ensureDeployment hrV mcmV (storeClient deploymentKey)
        ((⟨dep.name, dep.ns⟩, dep) :: stD) m cache dep) = .noOp := by
  have keyS : (⟨s.name, s.ns⟩ : NamespacedName) = ⟨s.name, m.ns⟩ := by rw [hns]
  have keyD : (⟨dep.name, dep.ns⟩ : NamespacedName) = ⟨dep.name, m.ns⟩ := by rw [hnsD]
  have e1 : ensureSecret (storeClient secretKey) stS m s
      = ⟨(⟨s.name, s.ns⟩, s) :: stS, [.get ⟨s.name, m.ns⟩, .create s], none, none⟩ := by
    simp [ensureSecret, storeClient, storeGet, storeCreate, secretKey, keyS, habs,
      KErr.isNotFound]
  have hsg2 : storeGet ((⟨s.name, s.ns⟩, s) :: stS) ⟨s.name, m.ns⟩ = .ok s := by
    simp [storeGet, lookupStore, keyS]
  have e2 := ensureSecret_found (storeClient secretKey) ((⟨s.name, s.ns⟩, s) :: stS) m s s hsg2
  have e3 : ensureDeployment hrV mcmV (storeClient deploymentKey) stD m cache dep
      = ⟨(⟨dep.name, dep.ns⟩, dep) :: stD, [.get ⟨dep.name, m.ns⟩, .create dep], none, none⟩ := by
    simp [ensureDeployment, storeClient, storeGet, storeCreate, deploymentKey, keyD, habsD,
      KErr.isNotFound]
  have hdg2 : (storeClient deploymentKey).get ((⟨dep.name, dep.ns⟩, dep) :: stD)
      ⟨dep.name, m.ns⟩ = .ok dep := by
    simp [storeClient, storeGet, lookupStore, keyD]
  have e4 := ensureDeployment_found_noUpdate hrV mcmV (storeClient deploymentKey)
    ((⟨dep.name, dep.ns⟩, dep) :: stD) m cache dep dep hdg2 hv1 hv2
  exact ⟨e1, by rw [e1]; rfl, e2, by rw [e2]; rfl, e3, by rw [e3]; rfl, e4, by rw [e4]; rfl⟩

/-- C8 witness: empty stores, the fixture secret and helm-repo deployment
(with a strategy that finds the created deployment clean): first call
Created, second call NoOp after a single Get. -/
theorem C8_witness :
    ensureSecret (storeClient secretKey) [] m0 s0
      = ⟨[(⟨"pull-secret", "open-cluster-management"⟩, s0)],
          [.get ⟨"pull-secret", "open-cluster-management"⟩, .create s0], none, none⟩
    ∧ outcomeOf (ensureSecret (storeClient secretKey)
        [(⟨"pull-secret", "open-cluster-management"⟩, s0)] m0 s0) = .noOp
    ∧ outcomeOf (ensureDeployment (fun _ _ d => (d, false)) (fun _ _ d => (d, false))
        (storeClient deploymentKey) [] m0 ⟨[]⟩ depDesired) = .created
    ∧ outcomeOf (ensureDeployment (fun _ _ d => (d, false)) (fun _ _ d => (d, false))
        (storeClient deploymentKey)
        [(⟨"multiclusterhub-repo", "open-cluster-management"⟩, depDesired)] m0 ⟨[]⟩ depDesired)
      = .noOp := by
  have T := C8_ensure_twice_created_then_noop [] m0 s0 rfl rfl
    (fun _ _ d => (d, false)) (fun _ _ d => (d, false)) [] ⟨[]⟩ depDesired rfl rfl rfl rfl
  exact ⟨T.1, T.2.2.2.1, T.2.2.2.2.2.1, T.2.2.2.2.2.2.2⟩

/-- C9: when `os.Stat` fails with an error other than not-exist (e.g. a
permission error), `os.IsNotExist(err)` is false and the returned `FileInfo`
is nil, so `fileExists` calls `info.IsDir()` on nil and the process panics —
it does not return a value-level error — and the panic aborts `readFileRaw`
and `ReadComponentVersionFile` as well; a genuine not-exist error is handled
as a value (last conjunct), so the panic is specific to the claimed input. -/
theorem C9_stat_error_panics :
    fileExists (.errOther "permission denied")
      = .panicked "runtime error: invalid memory address or nil pointer dereference"
    ∧ readFileRaw (.errOther "permission denied") (.ok "1.0.0") "/root/COMPONENT_VERSION"
      = .panicked "runtime error: invalid memory address or nil pointer dereference"
    ∧ ReadComponentVersionFile (.ok "/root") (.errOther "permission denied") (.ok "1.0.0")
      = .panicked "runtime error: invalid memory address or nil pointer dereference"
    ∧ fileExists .errNotExist = .ok false :=
  ⟨rfl, rfl, rfl, rfl⟩

/-- The result-pairing invariant: a helper returns either `(nil, nil)` or
`(&reconcile.Result{}, err)` with a non-nil error. -/
def resultPaired (r : EnsureResult σ α) : Prop :=
  (r.result = none ∧ r.errOut = none)
  ∨ (r.result = some emptyResult ∧ r.errOut.isSome = true)

theorem ensureSecret_paired {σ : Type} (c : Client σ Secret) (st : σ)
    (m : MultiClusterHub) (s : Secret) : resultPaired (ensureSecret c st m s) := by
  unfold resultPaired
  rcases hget : c.get st ⟨s.name, m.ns⟩ with e | v
  · rcases e with _ | msg
    · rcases hc : c.create st s with ⟨oe, st'⟩
      cases oe <;> simp [ensureSecret, hget, hc, KErr.isNotFound]
    · simp [ensureSecret, hget, KErr.isNotFound]
  · simp [ensureSecret, hget]

theorem ensureService_paired {σ : Type} (c : Client σ Service) (st : σ)
    (m : MultiClusterHub) (s : Service) : resultPaired (ensureService c st m s) := by
  unfold resultPaired
  rcases hget : c.get st ⟨s.name, m.ns⟩ with e | v
  · rcases e with _ | msg
    · rcases hc : c.create st s with ⟨oe, st'⟩
      cases oe <;> simp [ensureService, hget, hc, KErr.isNotFound]
    · simp [ensureService, hget, KErr.isNotFound]
  · simp [ensureService, hget]

theorem ensureChannel_paired {σ : Type} (c : Client σ Unstructured) (st : σ)
    (m : MultiClusterHub) (u : Unstructured) : resultPaired (ensureChannel c st m u) := by
  unfold resultPaired
  rcases hget : c.get st ⟨u.name, m.ns⟩ with e | v
  · rcases e with _ | msg
    · rcases hc : c.create st u with ⟨oe, st'⟩
      cases oe <;> simp [ensureChannel, hget, hc, KErr.isNotFound]
    · simp [ensureChannel, hget, KErr.isNotFound]
  · simp [ensureChannel, hget]

theorem ensureSubscription_paired {σ : Type}
    (validate : Unstructured → Unstructured → Unstructured × Bool)
    (c : Client σ Unstructured) (st : σ) (m : MultiClusterHub) (u : Unstructured) :
    resultPaired (ensureSubscription validate c st m u) := by
  unfold resultPaired
  rcases hget : c.get st ⟨u.name, u.ns⟩ with e | found
  · rcases e with _ | msg
    · by_cases hm : m.uid = ""
      · simp [ensureSubscription, hget, hm, KErr.isNotFound]
      · rcases hc : c.create st u with ⟨oe, st'⟩
        cases oe <;> simp [ensureSubscription, hget, hm, hc, KErr.isNotFound]
    · simp [ensureSubscription, hget, KErr.isNotFound]
  · by_cases hv : (validate found u).2
    · rcases hu : c.update st (validate found u).1 with ⟨oe, st'⟩
      cases oe <;> simp [ensureSubscription, hget, hv, hu]
    · simp [ensureSubscription, hget, hv]

theorem ensureDeployment_paired {σ : Type}
    (hrV mcmV : MultiClusterHub → CacheSpec → Deployment → Deployment × Bool)
    (c : Client σ Deployment) (st : σ) (m : MultiClusterHub) (cache : CacheSpec)
    (dep : Deployment) : resultPaired (ensureDeployment hrV mcmV c st m cache dep) := by
  unfold resultPaired
  rcases hget : c.get st ⟨dep.name, m.ns⟩ with e | found
  · rcases e with _ | msg
    · rcases hc : c.create st dep with ⟨oe, st'⟩
      cases oe <;> simp [ensureDeployment, hget, hc, KErr.isNotFound]
    · simp [ensureDeployment, hget, KErr.isNotFound]
  · by_cases h1 : found.name = HelmRepoName
    · rcases hp : hrV m cache found with ⟨d1, b1⟩
      cases b1
      · simp [ensureDeployment, hget, h1, hp]
      · rcases hu : c.update st d1 with ⟨oe, st'⟩
        cases oe <;> simp [ensureDeployment, hget, h1, hp, hu]
    · by_cases h2 : found.name = APIServerName ∨ found.name = ControllerName
          ∨ found.name = WebhookName
      · rcases hp : mcmV m cache found with ⟨d2, b2⟩
        cases b2
        · simp [ensureDeployment, hget, h1, h2, hp]
        · rcases hu : c.update st d2 with ⟨oe, st'⟩
          cases oe <;> simp [ensureDeployment, hget, h1, h2, hp, hu]
      · simp [ensureDeployment, hget, h1, h2]

theorem copyPullSecret_paired {σ : Type} (conv : Secret → Except KErr Secret)
    (c : Client σ Secret) (st : σ) (m : MultiClusterHub) (newNS : String) :
    resultPaired (copyPullSecret conv c st m newNS) := by
  unfold resultPaired
  rcases hsrc : c.get st ⟨m.imagePullSecret, m.ns⟩ with e | src
  · simp [copyPullSecret, hsrc]
  · rcases hcv : conv { src with ns := newNS, selfLink := "", resourceVersion := "", uid := "" }
      with e2 | u2
    · simp [copyPullSecret, hsrc, hcv]
    · rcases htg : c.get st ⟨(AddInstallerLabel u2 m.name m.ns).name, newNS⟩ with e3 | ex
      · rcases e3 with _ | msg
        · rcases hc : c.create st (AddInstallerLabel u2 m.name m.ns) with ⟨oe, st'⟩
          cases oe <;> simp [copyPullSecret, hsrc, hcv, htg, hc, KErr.isNotFound]
        · simp [copyPullSecret, hsrc, hcv, htg, KErr.isNotFound]
      · simp [copyPullSecret, hsrc, hcv, htg]

theorem apiReady_cases (gc : Except KErr RestConfig)
    (nd : RestConfig → Except KErr DiscoveryClient)
    (sv : DiscoveryClient → GroupVersion → Option KErr) (gv : GroupVersion) :
    ((apiReady gc nd sv gv).1 = none ∧ (apiReady gc nd sv gv).2 = none)
    ∨ ((apiReady gc nd sv gv).1 = some emptyResult
        ∧ (apiReady gc nd sv gv).2.isSome = true)
    ∨ ((apiReady gc nd sv gv).1 = some ⟨false, 10⟩ ∧ (apiReady gc nd sv gv).2 = none) := by
  rcases gc with e | cfg
  · simp [apiReady]
  · rcases hnd : nd cfg with e | c
    · simp [apiReady, hnd]
    · rcases hsv : sv c gv with _ | e
      · simp [apiReady, hnd, hsv]
      · simp [apiReady, hnd, hsv]

/-- C10: every ensure helper and `copyPullSecret` returns either
`(nil, nil)` (success / no-op) or `(&reconcile.Result{}, err)` with a
non-nil error (failure) — never a non-nil result with a nil error; `apiReady`
additionally has the one non-nil-result-with-nil-error shape
`(&Result{RequeueAfter: 10s}, nil)`, exhibited by the last conjunct. -/
theorem C10_result_error_pairing
    {σ1 σ2 σ3 σ4 σ5 σ6 : Type}
    (hrV mcmV : MultiClusterHub → CacheSpec → Deployment → Deployment × Bool)
    (validate : Unstructured → Unstructured → Unstructured × Bool)
    (conv : Secret → Except KErr Secret)
    (cD : Client σ1 Deployment) (stD : σ1) (cache : CacheSpec) (dep : Deployment)
    (cV : Client σ2 Service) (stV : σ2) (svc : Service)
    (cS : Client σ3 Secret) (stS : σ3) (sec : Secret)
    (cC : Client σ4 Unstructured) (stC : σ4) (ch : Unstructured)
    (cU : Client σ5 Unstructured) (stU : σ5) (sub : Unstructured)
    (cP : Client σ6 Secret) (stP : σ6) (newNS : String)
    (m : MultiClusterHub)
    (gc : Except KErr RestConfig) (nd : RestConfig → Except KErr DiscoveryClient)
    (sv : DiscoveryClient → GroupVersion → Option KErr) (gv : GroupVersion) :
    resultPaired (ensureDeployment hrV mcmV cD stD m cache dep)
    ∧ resultPaired (ensureService cV stV m svc)
    ∧ resultPaired (ensureSecret cS stS m sec)
    ∧ resultPaired (ensureChannel cC stC m ch)
    ∧ resultPaired (ensureSubscription validate cU stU m sub)
    ∧ resultPaired (copyPullSecret conv cP stP m newNS)
    ∧ (((apiReady gc nd sv gv).1 = none ∧ (apiReady gc nd sv gv).2 = none)
       ∨ ((apiReady gc nd sv gv).1 = some emptyResult
           ∧ (apiReady gc nd sv gv).2.isSome = true)
       ∨ ((apiReady gc nd sv gv).1 = some ⟨false, 10⟩ ∧ (apiReady gc nd sv gv).2 = none))
    ∧ apiReady (.ok ⟨"https://api.cluster.local"⟩) (fun cfg => .ok ⟨cfg⟩)
        (fun _ _ => some (KErr.other "not served")) ⟨"g", "v1"⟩
      = (some ⟨false, 10⟩, none) :=
  ⟨ensureDeployment_paired hrV mcmV cD stD m cache dep,
   ensureService_paired cV stV m svc,
   ensureSecret_paired cS stS m sec,
   ensureChannel_paired cC stC m ch,
   ensureSubscription_paired validate cU stU m sub,
   copyPullSecret_paired conv cP stP m newNS,
   apiReady_cases gc nd sv gv,
   rfl⟩
